import Mathlib

/-!
# SearchableWebView (src/ui/widgets/searchablewebview.cpp)

A shallow embedding of the `SearchableWebView` widget of Zeal: a `QWidget` that owns a
`WebView` (`m_webView`) and a `QLineEdit` (`m_searchLineEdit`) laid over it.

The widget is glue around two toolkit objects.  The embedding therefore keeps

* the observable state of the embedded web view (`WebViewState`), whose reaction to a call
  is not part of this file and is taken as a parameter (`Engine`);
* the state of the search box (`QLineEdit`);
* a `trace` of every call the widget issues on its children, in program order.

The preprocessor switch `USE_WEBENGINE` is the parameter `Build`.
C++ `int` values are carried in `Int`, and the arithmetic the widget itself performs on them
(in `moveLineEdit`) is 32-bit two's complement: every result goes through `wrapInt`.
`SearchableWebView.moveLineEdit_fits_int` shows that no step wraps for geometry within the
toolkit's limit on widget sizes.
-/

/-! ## Toolkit data -/

/-- The two ways the file is compiled: with `USE_WEBENGINE` undefined or defined. -/
inductive Build where
  | webkit
  | webengine
  deriving DecidableEq, Repr

/-- A `QString`; the null and the empty string compare equal in Qt and are both `""`. -/
abbrev QString := String

/-- The test `QString::isEmpty`. -/
def QString.isEmpty (s : QString) : Bool := s.data.isEmpty

/-- The test `QString::startsWith(QLatin1String)`, case-sensitive as by Qt's default. -/
def QString.startsWith (s : QString) (pre : String) : Bool := pre.data.isPrefixOf s.data

/-- A `QSize`. -/
structure QSize where
  width : Int
  height : Int
  deriving DecidableEq, Repr

/-- A `QPoint`. -/
structure QPoint where
  x : Int
  y : Int
  deriving DecidableEq, Repr

/-- A `QRect`, stored as Qt stores it: the two corners, both inclusive. -/
structure QRect where
  x1 : Int
  y1 : Int
  x2 : Int
  y2 : Int
  deriving DecidableEq, Repr

namespace QRect

/-- The constructor `QRect(left, top, width, height)`. -/
def ofSize (left top width height : Int) : QRect :=
  ⟨left, top, left + width - 1, top + height - 1⟩

/-- The accessor `QRect::left`. -/
def left (r : QRect) : Int := r.x1

/-- The accessor `QRect::top`. -/
def top (r : QRect) : Int := r.y1

/-- The accessor `QRect::right`. -/
def right (r : QRect) : Int := r.x2

/-- The accessor `QRect::width`. -/
def width (r : QRect) : Int := r.x2 - r.x1 + 1

end QRect

/-- The value a 32-bit two's complement `int` holds after an operation whose exact result is
`v`: `v` itself when it is in range, and `v` reduced modulo 2^32 into the range otherwise. -/
def wrapInt (v : Int) : Int := (v + 2147483648) % 4294967296 - 2147483648

/-- The `QWebPage::FindFlag` values. -/
def QWebPage.FindBackward : Nat := 1

/-- The flag `QWebPage::FindCaseSensitively`. -/
def QWebPage.FindCaseSensitively : Nat := 2

/-- The flag `QWebPage::FindWrapsAroundDocument`. -/
def QWebPage.FindWrapsAroundDocument : Nat := 4

/-- The flag `QWebPage::HighlightAllOccurrences`. -/
def QWebPage.HighlightAllOccurrences : Nat := 8

/-- The test `QFlags::testFlag`. -/
def testFlag (flags f : Nat) : Bool :=
  (flags &&& f == f) && (f != 0 || flags == f)

/-- The key `Qt::Key_Escape`. -/
def Qt.Key_Escape : Nat := 0x01000000

/-- The key `Qt::Key_Return`. -/
def Qt.Key_Return : Nat := 0x01000004

/-- The key `Qt::Key_Enter`. -/
def Qt.Key_Enter : Nat := 0x01000005

/-- The key `Qt::Key_Slash`. -/
def Qt.Key_Slash : Nat := 0x2f

/-- The modifier `Qt::ShiftModifier`. -/
def Qt.ShiftModifier : Nat := 0x02000000

/-- The event type `QEvent::KeyPress`. -/
def QEvent.KeyPress : Nat := 6

/-- The widget attribute `Qt::WA_AcceptTouchEvents`. -/
def Qt.WA_AcceptTouchEvents : Nat := 121

/-- An event as the handlers read it: its type and, for a key event, the key and the
modifiers (read only after the type has been found to be `KeyPress`). -/
structure QEvent where
  type : Nat
  key : Nat
  modifiers : Nat
  deriving DecidableEq, Repr

/-- The objects an event filter can be asked about. -/
inductive QObjectId where
  | searchLineEdit
  | webView
  | self
  | other (n : Nat)
  deriving DecidableEq, Repr

/-! ## The embedded web view -/

/-- What the embedded `WebView` reports when asked. -/
structure WebViewState where
  url : String
  title : QString
  zealZoomFactor : Int
  page : Nat
  sizeHint : QSize
  historyCanGoBack : Bool
  historyCanGoForward : Bool
  selectedText : QString
  verticalScrollBarGeometry : QRect
  deriving DecidableEq, Repr

/-- The operations the widget invokes on `m_webView`. -/
inductive WebViewCall where
  | setAttribute (attribute_ : Nat) (enabled : Bool)
  | setPage (page : Nat)
  | load (url : String)
  | setFocus
  | back
  | forward
  | setZealZoomFactor (value : Int)
  | resize (w h : Int)
  | findText (text : QString) (flags : Nat)
  deriving DecidableEq, Repr

/-- The operations the widget invokes on `m_searchLineEdit`. -/
inductive LineEditCall where
  | hide
  | show_
  | setFocus
  | selectAll
  | move (x y : Int)
  | raise
  | installEventFilter
  deriving DecidableEq, Repr

/-- One call issued by the widget on a child (or, for the tooltip, on itself). -/
inductive Call where
  | webView (c : WebViewCall)
  | lineEdit (c : LineEditCall)
  | setToolTip (text : QString)
  deriving DecidableEq, Repr

/-- How the web view reacts to a call.  The class `WebView` is not part of this file, so its
behaviour is a parameter: every theorem holds for every engine. -/
abbrev Engine := WebViewCall → WebViewState → WebViewState

/-- The search box. -/
structure QLineEdit where
  text : QString
  visible : Bool
  hasFocus : Bool
  selectedText : QString
  pos : QPoint
  raised : Bool
  sizeHint : QSize
  deriving DecidableEq, Repr

/-- The widget: its two children, what it reads from its base class, and the trace of the
calls it has issued. -/
structure SearchableWebView where
  m_searchLineEdit : QLineEdit
  m_webView : WebViewState
  size : QSize
  styleFrameWidth : Int
  toolTip : QString
  hoverConnections : List Nat
  trace : List Call
  deriving DecidableEq, Repr

namespace SearchableWebView

/-! ## Calls on the children -/

/-- The search box after a call on the web view: keyboard focus is exclusive, so giving it
to the web view takes it from the search box; no other call touches the search box. -/
def lineEditAfterWebViewCall (e : QLineEdit) : WebViewCall → QLineEdit
  | .setFocus => { e with hasFocus := false }
  | _ => e

/-- A call on `m_webView`: the engine reacts and the call is recorded. -/
def callWebView (eng : Engine) (self : SearchableWebView) (c : WebViewCall) :
    SearchableWebView :=
  { self with
    m_webView := eng c self.m_webView,
    m_searchLineEdit := lineEditAfterWebViewCall self.m_searchLineEdit c,
    trace := self.trace ++ [Call.webView c] }

/-- The effect of a call on the search box itself. -/
def applyLineEdit (e : QLineEdit) : LineEditCall → QLineEdit
  | .hide => { e with visible := false, hasFocus := false }
  | .show_ => { e with visible := true }
  | .setFocus => { e with hasFocus := true }
  | .selectAll => { e with selectedText := e.text }
  | .move x y => { e with pos := ⟨x, y⟩ }
  | .raise => { e with raised := true }
  | .installEventFilter => e

/-- A call on `m_searchLineEdit`, recorded in the trace. -/
def callLineEdit (self : SearchableWebView) (c : LineEditCall) : SearchableWebView :=
  { self with
    m_searchLineEdit := applyLineEdit self.m_searchLineEdit c,
    trace := self.trace ++ [Call.lineEdit c] }

/-- The call `QWidget::setToolTip`. -/
def setToolTip (self : SearchableWebView) (text : QString) : SearchableWebView :=
  { self with toolTip := text, trace := self.trace ++ [Call.setToolTip text] }

/-- The accessor `QWidget::rect`: the rectangle `(0, 0, width, height)`. -/
def rect (self : SearchableWebView) : QRect :=
  QRect.ofSize 0 0 self.size.width self.size.height

/-! ## The member functions, in the order of the source -/

/-- Member function `SearchableWebView::moveLineEdit` (lines 210-220). -/
def moveLineEdit (b : Build) (self : SearchableWebView) : SearchableWebView :=
  let frameWidth := self.styleFrameWidth
  let frameWidth :=
    match b with
    | .webengine => frameWidth
    | .webkit => wrapInt (frameWidth + self.m_webView.verticalScrollBarGeometry.width)
  let self := callLineEdit self
    (.move
      (wrapInt (wrapInt (self.rect.right - frameWidth) - self.m_searchLineEdit.sizeHint.width))
      self.rect.top)
  callLineEdit self .raise

/-- The slot connected to `loadFinished` in the constructor (lines 33-36). -/
def loadFinishedSlot (b : Build) (self : SearchableWebView) (_ok : Bool) :
    SearchableWebView :=
  moveLineEdit b self

/-- The constructor (lines 19-46), given the web view it creates. -/
def construct (eng : Engine) (web : WebViewState) (lineEditHint size : QSize)
    (frame : Int) : SearchableWebView :=
  let self : SearchableWebView :=
    { m_searchLineEdit := ⟨"", false, false, "", ⟨0, 0⟩, false, lineEditHint⟩,
      m_webView := web, size := size, styleFrameWidth := frame, toolTip := "",
      hoverConnections := [], trace := [] }
  let self := callWebView eng self (.setAttribute Qt.WA_AcceptTouchEvents false)
  let self := callLineEdit self .hide
  callLineEdit self .installEventFilter

/-- The slot connected to `linkHovered` by `setPage` (lines 52-55). -/
def linkHoveredSlot (self : SearchableWebView) (link : QString) : SearchableWebView :=
  if !link.startsWith "file:" then setToolTip self link else self

/-- Member function `SearchableWebView::setPage` (lines 48-56). -/
def setPage (eng : Engine) (self : SearchableWebView) (page : Nat) : SearchableWebView :=
  let self := callWebView eng self (.setPage page)
  { self with hoverConnections := self.hoverConnections ++ [page] }

/-- Member function `SearchableWebView::url` (line 58). -/
def url (self : SearchableWebView) : String := self.m_webView.url

/-- Member function `SearchableWebView::title` (line 63). -/
def title (self : SearchableWebView) : QString := self.m_webView.title

/-- Member function `SearchableWebView::zoomFactor` (line 68). -/
def zoomFactor (self : SearchableWebView) : Int := self.m_webView.zealZoomFactor

/-- Member function `SearchableWebView::setZoomFactor` (line 73). -/
def setZoomFactor (eng : Engine) (self : SearchableWebView) (value : Int) :
    SearchableWebView :=
  callWebView eng self (.setZealZoomFactor value)

/-- Member function `SearchableWebView::load` (line 98). -/
def load (eng : Engine) (self : SearchableWebView) (url : String) : SearchableWebView :=
  callWebView eng self (.load url)

/-- Member function `SearchableWebView::focus` (line 103). -/
def focus (eng : Engine) (self : SearchableWebView) : SearchableWebView :=
  callWebView eng self .setFocus

/-- Member function `SearchableWebView::page` (line 108). -/
def page (self : SearchableWebView) : Nat := self.m_webView.page

/-- Member function `SearchableWebView::sizeHint` (line 113). -/
def sizeHint (self : SearchableWebView) : QSize := self.m_webView.sizeHint

/-- Member function `SearchableWebView::back` (line 118). -/
def back (eng : Engine) (self : SearchableWebView) : SearchableWebView :=
  callWebView eng self .back

/-- Member function `SearchableWebView::forward` (line 123). -/
def forward (eng : Engine) (self : SearchableWebView) : SearchableWebView :=
  callWebView eng self .forward

/-- Member function `SearchableWebView::canGoBack` (line 128). -/
def canGoBack (self : SearchableWebView) : Bool := self.m_webView.historyCanGoBack

/-- Member function `SearchableWebView::canGoForward` (line 133). -/
def canGoForward (self : SearchableWebView) : Bool := self.m_webView.historyCanGoForward

/-- Member function `SearchableWebView::hideSearch` (lines 168-176). -/
def hideSearch (b : Build) (eng : Engine) (self : SearchableWebView) : SearchableWebView :=
  let self := callLineEdit self .hide
  match b with
  | .webengine => callWebView eng self (.findText "" 0)
  | .webkit => callWebView eng self (.findText "" QWebPage.HighlightAllOccurrences)

/-- Member function `SearchableWebView::find` (lines 178-196). -/
def find (b : Build) (eng : Engine) (self : SearchableWebView) (text : QString) :
    SearchableWebView :=
  match b with
  | .webengine => callWebView eng self (.findText text 0)
  | .webkit =>
    if self.m_webView.selectedText != text then
      let self := callWebView eng self (.findText "" QWebPage.HighlightAllOccurrences)
      let self := callWebView eng self (.findText "" 0)
      if text.isEmpty then
        self
      else
        let self := callWebView eng self (.findText text QWebPage.FindWrapsAroundDocument)
        callWebView eng self (.findText text QWebPage.HighlightAllOccurrences)
    else
      callWebView eng self (.findText text QWebPage.HighlightAllOccurrences)

/-- The flags `findNext` computes (lines 200-206). -/
def findNextFlags (b : Build) (backward : Bool) : Nat :=
  let flags :=
    match b with
    | .webengine => 0
    | .webkit => QWebPage.FindWrapsAroundDocument
  if backward then flags ||| QWebPage.FindBackward else flags

/-- Member function `SearchableWebView::findNext` (lines 198-208). -/
def findNext (b : Build) (eng : Engine) (self : SearchableWebView) (text : QString)
    (backward : Bool) : SearchableWebView :=
  callWebView eng self (.findText text (findNextFlags b backward))

/-- Member function `SearchableWebView::showSearch` (lines 158-166). -/
def showSearch (b : Build) (eng : Engine) (self : SearchableWebView) : SearchableWebView :=
  let self := callLineEdit self .show_
  let self := callLineEdit self .setFocus
  if !self.m_searchLineEdit.text.isEmpty then
    let self := callLineEdit self .selectAll
    find b eng self self.m_searchLineEdit.text
  else
    self

/-- Member function `SearchableWebView::eventFilter` (lines 78-96).  The base-class filter
`QWidget::eventFilter` is a parameter; the result is the new state and the returned flag. -/
def eventFilter (b : Build) (eng : Engine) (baseFilter : QObjectId → QEvent → Bool)
    (self : SearchableWebView) (object : QObjectId) (event : QEvent) :
    SearchableWebView × Bool :=
  if object = QObjectId.searchLineEdit ∧ event.type = QEvent.KeyPress then
    if event.key = Qt.Key_Escape then
      (hideSearch b eng self, true)
    else if event.key = Qt.Key_Enter ∨ event.key = Qt.Key_Return then
      (findNext b eng self self.m_searchLineEdit.text
        ((event.modifiers &&& Qt.ShiftModifier) != 0), true)
    else
      (self, baseFilter object event)
  else
    (self, baseFilter object event)

/-- Member function `SearchableWebView::keyPressEvent` (lines 138-149); the flag is the event's accepted
state on return. -/
def keyPressEvent (b : Build) (eng : Engine) (self : SearchableWebView) (event : QEvent) :
    SearchableWebView × Bool :=
  if event.key = Qt.Key_Slash then
    (showSearch b eng self, true)
  else
    (self, false)

/-- Member function `SearchableWebView::resizeEvent` (lines 151-156); the base-class handler does nothing. -/
def resizeEvent (b : Build) (eng : Engine) (self : SearchableWebView) (size : QSize) :
    SearchableWebView :=
  let self := callWebView eng self (.resize size.width size.height)
  moveLineEdit b self

/-! ## The toolkit driving the widget -/

/-- The signal `linkHovered(link)` of `page`: every slot connected to that page runs. -/
def emitLinkHovered (self : SearchableWebView) (page : Nat) (link : QString) :
    SearchableWebView :=
  (self.hoverConnections.filter (fun p => p == page)).foldl
    (fun s _ => linkHoveredSlot s link) self

/-- The user changes the content of the search box to `text`: the box holds the new text
without a selection, and `textChanged`, connected to `find` (line 28), fires when the text
differs from the old one. -/
def textEdited (b : Build) (eng : Engine) (self : SearchableWebView) (text : QString) :
    SearchableWebView :=
  if self.m_searchLineEdit.text = text then self
  else
    find b eng
      { self with
        m_searchLineEdit := { self.m_searchLineEdit with text := text, selectedText := "" } }
      text

/-- Everything that can happen to a constructed widget: calls of its member functions, the
events and signals the toolkit delivers, the user editing the search box, and the web view
changing on its own (a page loads, the user selects text in the page). -/
inductive Action where
  | setPage (page : Nat)
  | setZoomFactor (value : Int)
  | load (url : String)
  | focus
  | back
  | forward
  | showSearch
  | hideSearch
  | find (text : QString)
  | findNext (text : QString) (backward : Bool)
  | moveLineEdit
  | keyPressEvent (event : QEvent)
  | eventFilter (object : QObjectId) (event : QEvent)
  | resizeEvent (size : QSize)
  | loadFinished (ok : Bool)
  | linkHovered (page : Nat) (link : QString)
  | textEdited (text : QString)
  | webViewChanged (web : WebViewState)
  deriving DecidableEq, Repr

/-- One action.  A resize event is delivered after the widget has taken its new size. -/
def step (b : Build) (eng : Engine) (baseFilter : QObjectId → QEvent → Bool)
    (self : SearchableWebView) : Action → SearchableWebView
  | .setPage page => setPage eng self page
  | .setZoomFactor value => setZoomFactor eng self value
  | .load url => load eng self url
  | .focus => focus eng self
  | .back => back eng self
  | .forward => forward eng self
  | .showSearch => showSearch b eng self
  | .hideSearch => hideSearch b eng self
  | .find text => find b eng self text
  | .findNext text backward => findNext b eng self text backward
  | .moveLineEdit => moveLineEdit b self
  | .keyPressEvent event => (keyPressEvent b eng self event).1
  | .eventFilter object event => (eventFilter b eng baseFilter self object event).1
  | .resizeEvent size => resizeEvent b eng { self with size := size } size
  | .loadFinished ok => loadFinishedSlot b self ok
  | .linkHovered page link => emitLinkHovered self page link
  | .textEdited text => textEdited b eng self text
  | .webViewChanged web => { self with m_webView := web }

/-- A sequence of actions, from a given state. -/
def run (b : Build) (eng : Engine) (baseFilter : QObjectId → QEvent → Bool)
    (self : SearchableWebView) (actions : List Action) : SearchableWebView :=
  actions.foldl (step b eng baseFilter) self

/-- The last text the user entered in the search box, the empty string if there is none. -/
def lastInput (actions : List Action) : QString :=
  actions.foldl (fun last a => match a with | .textEdited t => t | _ => last) ""

/-- The calls on the web view among a list of calls. -/
def webViewCalls (cs : List Call) : List WebViewCall :=
  cs.filterMap (fun c => match c with | .webView w => some w | _ => none)

/-- Whether a call on the web view is a `findText`. -/
def isFindText : WebViewCall → Bool
  | .findText _ _ => true
  | _ => false

/-- A web view for the examples: a whole-document search selects the text searched for, and
a zoom request is stored. -/
def exampleEngine : Engine
  | .findText text flags, w =>
    if flags = QWebPage.FindWrapsAroundDocument then { w with selectedText := text } else w
  | .setZealZoomFactor value, w => { w with zealZoomFactor := value }
  | _, w => w

/-- A web view state for the examples. -/
def exampleWebView : WebViewState :=
  { url := "file:///docs/index.html", title := "Index", zealZoomFactor := 0, page := 1,
    sizeHint := ⟨800, 600⟩, historyCanGoBack := false, historyCanGoForward := false,
    selectedText := "", verticalScrollBarGeometry := QRect.ofSize 785 0 15 600 }

/-- A freshly constructed widget of 800 by 600 for the examples. -/
def exampleWidget : SearchableWebView :=
  construct exampleEngine exampleWebView ⟨120, 24⟩ ⟨800, 600⟩ 2

end SearchableWebView

/-! ## What the claims speak of -/

namespace SearchableWebView

/-- The `findText` call with the given text and flags, as an entry of the trace. -/
def findTextCall (text : QString) (flags : Nat) : Call :=
  Call.webView (.findText text flags)

/-- The calls of `find(t)` in the WebKit build as the specification lists them, from the
current selection `s` of the web view. -/
def findCallsSpec (s t : QString) : List Call :=
  if s = t then
    [findTextCall t QWebPage.HighlightAllOccurrences]
  else if t = "" then
    [findTextCall "" QWebPage.HighlightAllOccurrences, findTextCall "" 0]
  else
    [findTextCall "" QWebPage.HighlightAllOccurrences, findTextCall "" 0,
     findTextCall t QWebPage.FindWrapsAroundDocument,
     findTextCall t QWebPage.HighlightAllOccurrences]

/-- The flags of the call that clears the highlights, per build. -/
def clearFlags : Build → Nat
  | .webkit => QWebPage.HighlightAllOccurrences
  | .webengine => 0

/-- The vertical scroll-bar width that `moveLineEdit` counts, per build. -/
def countedScrollBarWidth (b : Build) (self : SearchableWebView) : Int :=
  match b with
  | .webkit => self.m_webView.verticalScrollBarGeometry.width
  | .webengine => 0

/-- The point `moveLineEdit` moves the search box to. -/
def movedTo (b : Build) (self : SearchableWebView) : QPoint :=
  (moveLineEdit b self).m_searchLineEdit.pos

/-- The abscissa the specification gives for the search box. -/
def lineEditX (b : Build) (self : SearchableWebView) : Int :=
  self.rect.right - self.styleFrameWidth - countedScrollBarWidth b self
    - self.m_searchLineEdit.sizeHint.width

/-- The calls of `find(t)` per build: the list of the specification in the WebKit build, the
single plain `findText(t)` in the WebEngine build. -/
def findCalls (b : Build) (s t : QString) : List Call :=
  match b with
  | .webkit => findCallsSpec s t
  | .webengine => [findTextCall t 0]

/-- The calls issued between two states: what the trace has grown by. -/
def issuedBetween (before after : SearchableWebView) : List Call :=
  after.trace.drop before.trace.length

/-- The condition under which the event filter handles an event itself. -/
def isSearchKeyPress (object : QObjectId) (event : QEvent) : Prop :=
  object = QObjectId.searchLineEdit ∧ event.type = QEvent.KeyPress ∧
    (event.key = Qt.Key_Escape ∨ event.key = Qt.Key_Enter ∨ event.key = Qt.Key_Return)

/-- What a single forwarded call does: the engine has reacted to exactly that call, the call
is the one new entry of the trace, and the text and visibility of the search box are as
before. -/
def ForwardsOnly (eng : Engine) (before after : SearchableWebView) (c : WebViewCall) : Prop :=
  after.trace = before.trace ++ [Call.webView c] ∧
  after.m_webView = eng c before.m_webView ∧
  after.m_searchLineEdit.text = before.m_searchLineEdit.text ∧
  after.m_searchLineEdit.visible = before.m_searchLineEdit.visible

/-- The range of a C++ `int`: from -2^31 up to 2^31 - 1. -/
abbrev FitsInt (v : Int) : Prop := -2147483648 ≤ v ∧ v < 2147483648

end SearchableWebView

/-! ## Auxiliary facts -/

theorem QString.isEmpty_iff (s : QString) : s.isEmpty = true ↔ s = "" := by
  constructor
  · intro h
    have hd : s.data = [] := by
      simpa [QString.isEmpty, List.isEmpty_iff] using h
    exact String.ext (by simpa using hd)
  · rintro rfl
    rfl

theorem QString.isEmpty_eq_false_iff (s : QString) : s.isEmpty = false ↔ s ≠ "" := by
  have h := QString.isEmpty_iff s
  cases hs : s.isEmpty <;> simp_all

theorem QString.startsWith_iff (s : QString) (pre : String) :
    s.startsWith pre = true ↔ ∃ rest : String, s = pre ++ rest := by
  unfold QString.startsWith
  rw [List.isPrefixOf_iff_prefix]
  constructor
  · rintro ⟨t, ht⟩
    exact ⟨⟨t⟩, String.ext (by simp [← ht])⟩
  · rintro ⟨rest, rfl⟩
    exact ⟨rest.data, by simp⟩

theorem shift_set_iff (m : Nat) :
    ((m &&& Qt.ShiftModifier) != 0) = m.testBit 25 := by
  have h : Qt.ShiftModifier = 2 ^ 25 := by decide
  rw [h, Nat.and_two_pow]
  cases m.testBit 25 <;> simp

/-! ## The claims -/

namespace SearchableWebView

theorem callWebView_forwardsOnly (eng : Engine) (self : SearchableWebView) (c : WebViewCall) :
    ForwardsOnly eng self (callWebView eng self c) c := by
  refine ⟨rfl, rfl, ?_, ?_⟩ <;> cases c <;> rfl

/-- C1: the accessors return what the embedded web view (or its history) reports, the five
forwarding operations issue exactly one call of the corresponding web-view operation with the
same argument and leave the text and visibility of the search box alone, and the zoom read
back after `setZoomFactor(v)` is the one the web view reports after `setZealZoomFactor(v)`. -/
theorem C1_accessors_proxy_web_view (eng : Engine) (self : SearchableWebView)
    (u : String) (v : Int) :
    (self.url = self.m_webView.url ∧
      self.title = self.m_webView.title ∧
      self.zoomFactor = self.m_webView.zealZoomFactor ∧
      self.page = self.m_webView.page ∧
      self.sizeHint = self.m_webView.sizeHint ∧
      self.canGoBack = self.m_webView.historyCanGoBack ∧
      self.canGoForward = self.m_webView.historyCanGoForward) ∧
    (ForwardsOnly eng self (load eng self u) (.load u) ∧
      ForwardsOnly eng self (back eng self) .back ∧
      ForwardsOnly eng self (forward eng self) .forward ∧
      ForwardsOnly eng self (focus eng self) .setFocus ∧
      ForwardsOnly eng self (setZoomFactor eng self v) (.setZealZoomFactor v)) ∧
    (setZoomFactor eng self v).zoomFactor
      = (eng (.setZealZoomFactor v) self.m_webView).zealZoomFactor :=
  ⟨⟨rfl, rfl, rfl, rfl, rfl, rfl, rfl⟩,
   ⟨callWebView_forwardsOnly eng self _, callWebView_forwardsOnly eng self _,
    callWebView_forwardsOnly eng self _, callWebView_forwardsOnly eng self _,
    callWebView_forwardsOnly eng self _⟩,
   rfl⟩

theorem find_webkit_trace (eng : Engine) (self : SearchableWebView) (t : QString) :
    (find .webkit eng self t).trace
      = self.trace ++ findCallsSpec self.m_webView.selectedText t := by
  unfold find findCallsSpec
  by_cases hs : self.m_webView.selectedText = t
  · simp [hs, callWebView, findTextCall]
  · by_cases ht : t = ""
    · subst ht
      simp [hs, callWebView, findTextCall, QString.isEmpty]
    · have he : t.isEmpty = false := (QString.isEmpty_eq_false_iff t).2 ht
      simp [hs, ht, he, callWebView, findTextCall]

/-- C2: in the WebKit build `find(t)` issues exactly the `findText` calls the specification
lists for the three cases of the current selection, and nothing else; for a non-empty `t` the
last call is the highlight-all call for `t`; and every call of `find(t)` that is not a
highlight-all call comes after the call that clears the previous highlights. -/
theorem C2_find_highlight_all (eng : Engine) (self : SearchableWebView) (t : QString) :
    (find .webkit eng self t).trace
      = self.trace ++ findCallsSpec self.m_webView.selectedText t ∧
    (t ≠ "" →
      (find .webkit eng self t).trace.getLast?
        = some (findTextCall t QWebPage.HighlightAllOccurrences)) ∧
    (∀ (pre post : List Call) (text : QString) (flags : Nat),
      findCallsSpec self.m_webView.selectedText t
          = pre ++ findTextCall text flags :: post →
      testFlag flags QWebPage.HighlightAllOccurrences = false →
      findTextCall "" QWebPage.HighlightAllOccurrences ∈ pre) := by
  refine ⟨find_webkit_trace eng self t, ?_, ?_⟩
  · intro ht
    rw [find_webkit_trace]
    unfold findCallsSpec
    by_cases hs : self.m_webView.selectedText = t
    · simp [hs]
    · simp [hs, ht]
  · intro pre post text flags hsplit hflag
    unfold findCallsSpec at hsplit
    have hne : ∀ x : QString,
        findTextCall text flags ≠ findTextCall x QWebPage.HighlightAllOccurrences := by
      intro x hx
      simp only [findTextCall, Call.webView.injEq, WebViewCall.findText.injEq] at hx
      rw [hx.2] at hflag
      revert hflag
      decide
    split at hsplit
    · rcases pre with _ | ⟨p, pre⟩
      · simp at hsplit
        exact absurd hsplit.1.symm (hne t)
      · simp at hsplit
    · split at hsplit
      · rcases pre with _ | ⟨p, pre⟩
        · simp at hsplit
          exact absurd hsplit.1.symm (hne "")
        · simp at hsplit
          simp [hsplit.1]
      · rcases pre with _ | ⟨p, pre⟩
        · simp at hsplit
          exact absurd hsplit.1.symm (hne "")
        · simp at hsplit
          simp [hsplit.1]

theorem C2_find_highlight_all_witness :
    ("graph" ≠ "" ∧
      (find .webkit exampleEngine exampleWidget "graph").trace.getLast?
        = some (findTextCall "graph" QWebPage.HighlightAllOccurrences)) ∧
    (findCallsSpec exampleWidget.m_webView.selectedText "graph"
        = [findTextCall "" QWebPage.HighlightAllOccurrences, findTextCall "" 0]
          ++ findTextCall "graph" QWebPage.FindWrapsAroundDocument
            :: [findTextCall "graph" QWebPage.HighlightAllOccurrences] ∧
      testFlag QWebPage.FindWrapsAroundDocument QWebPage.HighlightAllOccurrences = false ∧
      findTextCall "" QWebPage.HighlightAllOccurrences
        ∈ [findTextCall "" QWebPage.HighlightAllOccurrences, findTextCall "" 0]) :=
  ⟨⟨by decide, (C2_find_highlight_all exampleEngine exampleWidget "graph").2.1 (by decide)⟩,
   ⟨by decide, by decide,
    (C2_find_highlight_all exampleEngine exampleWidget "graph").2.2
      [findTextCall "" QWebPage.HighlightAllOccurrences, findTextCall "" 0]
      [findTextCall "graph" QWebPage.HighlightAllOccurrences]
      "graph" QWebPage.FindWrapsAroundDocument (by decide) (by decide)⟩⟩

theorem findNextFlags_backward (b : Build) (backward : Bool) :
    testFlag (findNextFlags b backward) QWebPage.FindBackward = backward := by
  cases b <;> cases backward <;> decide

theorem findNextFlags_highlight (b : Build) (backward : Bool) :
    testFlag (findNextFlags b backward) QWebPage.HighlightAllOccurrences = false := by
  cases b <;> cases backward <;> decide

theorem eventFilter_enter_or_return (b : Build) (eng : Engine)
    (baseFilter : QObjectId → QEvent → Bool) (self : SearchableWebView) (key m : Nat)
    (hk : key = Qt.Key_Enter ∨ key = Qt.Key_Return) :
    eventFilter b eng baseFilter self .searchLineEdit ⟨QEvent.KeyPress, key, m⟩
      = (findNext b eng self self.m_searchLineEdit.text (m.testBit 25), true) := by
  have hne : key ≠ Qt.Key_Escape := by
    rcases hk with h | h <;> rw [h] <;> decide
  simp [eventFilter, hne, hk, shift_set_iff]

/-- C3: `findNext(t, backward)` issues exactly one `findText(t, flags)` call; the flags hold
`FindBackward` exactly when `backward` is true, hold `FindWrapsAroundDocument` always in the
WebKit build and never in the WebEngine build, and never hold `HighlightAllOccurrences`.  A
`KeyPress` of Enter or of Return on the search box makes `eventFilter` perform
`findNext(text of the search box, backward)` with `backward` true exactly when the Shift bit
of the modifiers is set, and return true. -/
theorem C3_find_next_previous (eng : Engine) (baseFilter : QObjectId → QEvent → Bool)
    (self : SearchableWebView) (t : QString) (backward : Bool) (m : Nat) :
    (∀ b : Build,
      (findNext b eng self t backward).trace
          = self.trace ++ [findTextCall t (findNextFlags b backward)] ∧
        (findNext b eng self t backward).m_webView
          = eng (.findText t (findNextFlags b backward)) self.m_webView ∧
        (testFlag (findNextFlags b backward) QWebPage.FindBackward = true ↔ backward = true) ∧
        testFlag (findNextFlags b backward) QWebPage.HighlightAllOccurrences = false) ∧
    testFlag (findNextFlags .webkit backward) QWebPage.FindWrapsAroundDocument = true ∧
    testFlag (findNextFlags .webengine backward) QWebPage.FindWrapsAroundDocument = false ∧
    (∀ b : Build,
      eventFilter b eng baseFilter self .searchLineEdit ⟨QEvent.KeyPress, Qt.Key_Enter, m⟩
          = (findNext b eng self self.m_searchLineEdit.text (m.testBit 25), true) ∧
        eventFilter b eng baseFilter self .searchLineEdit ⟨QEvent.KeyPress, Qt.Key_Return, m⟩
          = (findNext b eng self self.m_searchLineEdit.text (m.testBit 25), true)) := by
  refine ⟨fun b => ⟨rfl, rfl, ?_, findNextFlags_highlight b backward⟩, ?_, ?_, fun b => ⟨?_, ?_⟩⟩
  · rw [findNextFlags_backward]
  · cases backward <;> decide
  · cases backward <;> decide
  · exact eventFilter_enter_or_return b eng baseFilter self _ m (Or.inl rfl)
  · exact eventFilter_enter_or_return b eng baseFilter self _ m (Or.inr rfl)

/-- C4: a `KeyPress` of Escape on the search box makes `eventFilter` return true and leaves
the widget in the state of `hideSearch()`: the search box is hidden, the trace has grown by
the hiding of the box and one `findText` call with the empty string (flag
`HighlightAllOccurrences` in the WebKit build, no flag in the WebEngine build), and the text
of the search box is unchanged. -/
theorem C4_escape_closes_search (b : Build) (eng : Engine)
    (baseFilter : QObjectId → QEvent → Bool) (self : SearchableWebView) (m : Nat) :
    eventFilter b eng baseFilter self .searchLineEdit ⟨QEvent.KeyPress, Qt.Key_Escape, m⟩
      = (hideSearch b eng self, true) ∧
    (hideSearch b eng self).m_searchLineEdit.visible = false ∧
    (hideSearch b eng self).trace
      = self.trace ++ [Call.lineEdit .hide, findTextCall "" (clearFlags b)] ∧
    (hideSearch b eng self).m_webView = eng (.findText "" (clearFlags b)) self.m_webView ∧
    (hideSearch b eng self).m_searchLineEdit.text = self.m_searchLineEdit.text := by
  refine ⟨by simp [eventFilter], ?_, ?_, ?_, ?_⟩ <;> cases b <;>
    simp [hideSearch, callWebView, callLineEdit, applyLineEdit, lineEditAfterWebViewCall,
      findTextCall, clearFlags]

theorem moveLineEdit_trace (b : Build) (self : SearchableWebView) :
    (moveLineEdit b self).trace
      = self.trace ++ [Call.lineEdit (.move (movedTo b self).x (movedTo b self).y),
          Call.lineEdit .raise] := by
  cases b <;> simp [moveLineEdit, movedTo, callLineEdit, applyLineEdit]

theorem moveLineEdit_lineEdit (b : Build) (self : SearchableWebView) :
    (moveLineEdit b self).m_searchLineEdit
      = { self.m_searchLineEdit with pos := movedTo b self, raised := true } := by
  cases b <;> simp [moveLineEdit, movedTo, callLineEdit, applyLineEdit]

theorem movedTo_y (b : Build) (self : SearchableWebView) : (movedTo b self).y = 0 := by
  cases b <;> rfl

theorem moveLineEdit_rest (b : Build) (self : SearchableWebView) :
    (moveLineEdit b self).m_webView = self.m_webView ∧
    (moveLineEdit b self).size = self.size ∧
    (moveLineEdit b self).styleFrameWidth = self.styleFrameWidth ∧
    (moveLineEdit b self).toolTip = self.toolTip ∧
    (moveLineEdit b self).hoverConnections = self.hoverConnections := by
  cases b <;> simp [moveLineEdit, callLineEdit]

/-- For geometry within the toolkit's limit on widget sizes (`QWIDGETSIZE_MAX`, 2^24 - 1),
no step of the arithmetic of `moveLineEdit` leaves the range of `int`. -/
theorem moveLineEdit_fits_int (b : Build) (self : SearchableWebView)
    (hw : 0 ≤ self.size.width ∧ self.size.width < 2 ^ 24)
    (hf : 0 ≤ self.styleFrameWidth ∧ self.styleFrameWidth < 2 ^ 24)
    (hs : 0 ≤ countedScrollBarWidth b self ∧ countedScrollBarWidth b self < 2 ^ 24)
    (hh : 0 ≤ self.m_searchLineEdit.sizeHint.width ∧
      self.m_searchLineEdit.sizeHint.width < 2 ^ 24) :
    FitsInt (self.styleFrameWidth + countedScrollBarWidth b self) ∧
    FitsInt (self.rect.right - (self.styleFrameWidth + countedScrollBarWidth b self)) ∧
    FitsInt (lineEditX b self) := by
  simp only [FitsInt, lineEditX, rect, QRect.ofSize, QRect.right]
  omega

/-- The bounds of `moveLineEdit_fits_int` hold for the example widget. -/
theorem moveLineEdit_fits_int_example : FitsInt (lineEditX .webkit exampleWidget) :=
  (moveLineEdit_fits_int .webkit exampleWidget (by decide) (by decide) (by decide)
    (by decide)).2.2

theorem issuedBetween_append (before after : SearchableWebView) (cs : List Call)
    (h : after.trace = before.trace ++ cs) : issuedBetween before after = cs := by
  simp [issuedBetween, h]

/-- C6: `resizeEvent` for the size `(w, h)` resizes the embedded web view to exactly `(w, h)`
and then positions the search box exactly as `moveLineEdit()` does in the state so reached;
the slot of `loadFinished(ok)` positions the search box exactly as `moveLineEdit()` does, for
`ok` true and false alike.  Neither issues a `findText` call nor changes the text or the
visibility of the search box. -/
theorem C6_reposition_on_resize_and_load (b : Build) (eng : Engine)
    (self : SearchableWebView) (w h : Int) (ok : Bool) :
    ((webViewCalls (issuedBetween self (resizeEvent b eng self ⟨w, h⟩))).any isFindText
        = false ∧
      (webViewCalls (issuedBetween self (loadFinishedSlot b self ok))).any isFindText
        = false) ∧
    (resizeEvent b eng self ⟨w, h⟩ = moveLineEdit b (callWebView eng self (.resize w h)) ∧
      (callWebView eng self (.resize w h)).trace
        = self.trace ++ [Call.webView (.resize w h)] ∧
      issuedBetween self (resizeEvent b eng self ⟨w, h⟩)
        = Call.webView (.resize w h)
          :: issuedBetween (callWebView eng self (.resize w h))
              (moveLineEdit b (callWebView eng self (.resize w h))) ∧
      issuedBetween self (resizeEvent b eng self ⟨w, h⟩)
        = [Call.webView (.resize w h),
            Call.lineEdit (.move (movedTo b (callWebView eng self (.resize w h))).x 0),
            Call.lineEdit .raise] ∧
      (resizeEvent b eng self ⟨w, h⟩).m_webView = eng (.resize w h) self.m_webView ∧
      (resizeEvent b eng self ⟨w, h⟩).m_searchLineEdit.pos
        = (moveLineEdit b (callWebView eng self (.resize w h))).m_searchLineEdit.pos ∧
      (resizeEvent b eng self ⟨w, h⟩).m_searchLineEdit.pos.y = 0 ∧
      (resizeEvent b eng self ⟨w, h⟩).m_searchLineEdit.raised = true ∧
      (resizeEvent b eng self ⟨w, h⟩).m_searchLineEdit.text = self.m_searchLineEdit.text ∧
      (resizeEvent b eng self ⟨w, h⟩).m_searchLineEdit.visible
        = self.m_searchLineEdit.visible) ∧
    (loadFinishedSlot b self ok = moveLineEdit b self ∧
      issuedBetween self (loadFinishedSlot b self ok)
        = [Call.lineEdit (.move (movedTo b self).x 0), Call.lineEdit .raise] ∧
      (loadFinishedSlot b self ok).m_webView = self.m_webView ∧
      (loadFinishedSlot b self ok).m_searchLineEdit.pos
        = (moveLineEdit b self).m_searchLineEdit.pos ∧
      (loadFinishedSlot b self ok).m_searchLineEdit.pos.y = 0 ∧
      (loadFinishedSlot b self ok).m_searchLineEdit.raised = true ∧
      (loadFinishedSlot b self ok).m_searchLineEdit.text = self.m_searchLineEdit.text ∧
      (loadFinishedSlot b self ok).m_searchLineEdit.visible
        = self.m_searchLineEdit.visible) := by
  have hr : resizeEvent b eng self ⟨w, h⟩
      = moveLineEdit b (callWebView eng self (.resize w h)) := rfl
  have hl : loadFinishedSlot b self ok = moveLineEdit b self := rfl
  have hm : ∀ s : SearchableWebView,
      (moveLineEdit b s).trace
        = s.trace ++ [Call.lineEdit (.move (movedTo b s).x 0), Call.lineEdit .raise] := by
    intro s
    rw [moveLineEdit_trace, movedTo_y]
  have hc : (callWebView eng self (.resize w h)).trace
      = self.trace ++ [Call.webView (.resize w h)] := rfl
  have htr : (resizeEvent b eng self ⟨w, h⟩).trace
      = self.trace ++ [Call.webView (.resize w h),
          Call.lineEdit (.move (movedTo b (callWebView eng self (.resize w h))).x 0),
          Call.lineEdit .raise] := by
    rw [hr, hm, hc]
    simp
  have htl : (loadFinishedSlot b self ok).trace
      = self.trace ++ [Call.lineEdit (.move (movedTo b self).x 0), Call.lineEdit .raise] := by
    rw [hl, hm]
  refine ⟨⟨?_, ?_⟩, ⟨hr, hc, ?_, issuedBetween_append self _ _ htr, ?_, ?_, ?_, ?_, ?_, ?_⟩,
    ⟨hl, issuedBetween_append self _ _ htl, ?_, ?_, ?_, ?_, ?_, ?_⟩⟩
  · rw [issuedBetween_append self _ _ htr]
    simp [webViewCalls, isFindText]
  · rw [issuedBetween_append self _ _ htl]
    simp [webViewCalls]
  · rw [issuedBetween_append self _ _ htr, issuedBetween_append _ _ _ (hm _)]
  · rw [hr, (moveLineEdit_rest b _).1]
    rfl
  · rw [hr]
  · rw [hr]
    exact movedTo_y b _
  · rw [hr, moveLineEdit_lineEdit]
  · rw [hr, moveLineEdit_lineEdit]
    rfl
  · rw [hr, moveLineEdit_lineEdit]
    rfl
  · rw [hl, (moveLineEdit_rest b _).1]
  · rw [hl]
  · rw [hl]
    exact movedTo_y b _
  · rw [hl, moveLineEdit_lineEdit]
  · rw [hl, moveLineEdit_lineEdit]
  · rw [hl, moveLineEdit_lineEdit]

/-! ### What the operations leave alone -/

theorem callWebView_text (eng : Engine) (self : SearchableWebView) (c : WebViewCall) :
    (callWebView eng self c).m_searchLineEdit.text = self.m_searchLineEdit.text := by
  cases c <;> rfl

theorem callLineEdit_text (self : SearchableWebView) (c : LineEditCall) :
    (callLineEdit self c).m_searchLineEdit.text = self.m_searchLineEdit.text := by
  cases c <;> rfl

theorem find_text (b : Build) (eng : Engine) (self : SearchableWebView) (t : QString) :
    (find b eng self t).m_searchLineEdit.text = self.m_searchLineEdit.text := by
  cases b
  · unfold find
    simp only
    split_ifs <;> simp only [callWebView_text]
  · exact callWebView_text eng self _

theorem hideSearch_text (b : Build) (eng : Engine) (self : SearchableWebView) :
    (hideSearch b eng self).m_searchLineEdit.text = self.m_searchLineEdit.text := by
  cases b <;> simp only [hideSearch, callWebView_text, callLineEdit_text]

theorem showSearch_text (b : Build) (eng : Engine) (self : SearchableWebView) :
    (showSearch b eng self).m_searchLineEdit.text = self.m_searchLineEdit.text := by
  unfold showSearch
  simp only
  split_ifs <;> simp only [find_text, callLineEdit_text]

theorem moveLineEdit_text (b : Build) (self : SearchableWebView) :
    (moveLineEdit b self).m_searchLineEdit.text = self.m_searchLineEdit.text := by
  rw [moveLineEdit_lineEdit]

theorem eventFilter_text (b : Build) (eng : Engine) (baseFilter : QObjectId → QEvent → Bool)
    (self : SearchableWebView) (o : QObjectId) (e : QEvent) :
    (eventFilter b eng baseFilter self o e).1.m_searchLineEdit.text
      = self.m_searchLineEdit.text := by
  unfold eventFilter
  split_ifs <;> simp only [hideSearch_text, findNext, callWebView_text]

theorem keyPressEvent_text (b : Build) (eng : Engine) (self : SearchableWebView)
    (e : QEvent) :
    (keyPressEvent b eng self e).1.m_searchLineEdit.text = self.m_searchLineEdit.text := by
  unfold keyPressEvent
  split_ifs <;> simp only [showSearch_text]

theorem linkHoveredSlot_lineEdit (self : SearchableWebView) (l : QString) :
    (linkHoveredSlot self l).m_searchLineEdit = self.m_searchLineEdit := by
  unfold linkHoveredSlot
  split_ifs <;> rfl

theorem emitLinkHovered_lineEdit (self : SearchableWebView) (p : Nat) (l : QString) :
    (emitLinkHovered self p l).m_searchLineEdit = self.m_searchLineEdit := by
  unfold emitLinkHovered
  generalize self.hoverConnections.filter (fun q => q == p) = cs
  induction cs generalizing self with
  | nil => rfl
  | cons c cs ih => rw [List.foldl_cons, ih, linkHoveredSlot_lineEdit]

/-- The text of the search box after one action: the text entered, if the action is the user
editing the box, and the text before it otherwise. -/
theorem step_text (b : Build) (eng : Engine) (baseFilter : QObjectId → QEvent → Bool)
    (self : SearchableWebView) (a : Action) :
    (step b eng baseFilter self a).m_searchLineEdit.text
      = match a with
        | .textEdited t => t
        | _ => self.m_searchLineEdit.text := by
  cases a <;>
    simp only [step, setPage, setZoomFactor, load, focus, back, forward, findNext,
      resizeEvent, loadFinishedSlot, callWebView_text, find_text, hideSearch_text,
      showSearch_text, moveLineEdit_text, eventFilter_text, keyPressEvent_text,
      emitLinkHovered_lineEdit]
  case textEdited t =>
    unfold textEdited
    split_ifs with h
    · exact h
    · rw [find_text]

theorem run_text (b : Build) (eng : Engine) (baseFilter : QObjectId → QEvent → Bool)
    (actions : List Action) (self : SearchableWebView) (last : QString)
    (h : self.m_searchLineEdit.text = last) :
    (run b eng baseFilter self actions).m_searchLineEdit.text
      = actions.foldl (fun last a => match a with | .textEdited t => t | _ => last) last := by
  induction actions generalizing self last with
  | nil => exact h
  | cons a actions ih =>
    simp only [run, List.foldl_cons] at ih ⊢
    apply ih
    rw [step_text]
    cases a <;> simp only [h]

/-- C7: no operation or event handler of the widget changes the text of the search box; only
the user editing the box does.  So after any sequence of actions on a newly constructed
widget the text is the last one the user entered (empty if there is none), and `showSearch()`
after `hideSearch()` finds the text that was there before hiding. -/
theorem C7_search_text_is_last_input (b : Build) (eng : Engine)
    (baseFilter : QObjectId → QEvent → Bool) (self : SearchableWebView) :
    (∀ (t : QString) (backward : Bool) (size : QSize) (e : QEvent) (o : QObjectId)
        (u : String) (v : Int) (p : Nat),
      (showSearch b eng self).m_searchLineEdit.text = self.m_searchLineEdit.text ∧
      (hideSearch b eng self).m_searchLineEdit.text = self.m_searchLineEdit.text ∧
      (find b eng self t).m_searchLineEdit.text = self.m_searchLineEdit.text ∧
      (findNext b eng self t backward).m_searchLineEdit.text = self.m_searchLineEdit.text ∧
      (moveLineEdit b self).m_searchLineEdit.text = self.m_searchLineEdit.text ∧
      (resizeEvent b eng self size).m_searchLineEdit.text = self.m_searchLineEdit.text ∧
      (keyPressEvent b eng self e).1.m_searchLineEdit.text = self.m_searchLineEdit.text ∧
      (eventFilter b eng baseFilter self o e).1.m_searchLineEdit.text
        = self.m_searchLineEdit.text ∧
      (load eng self u).m_searchLineEdit.text = self.m_searchLineEdit.text ∧
      (back eng self).m_searchLineEdit.text = self.m_searchLineEdit.text ∧
      (forward eng self).m_searchLineEdit.text = self.m_searchLineEdit.text ∧
      (focus eng self).m_searchLineEdit.text = self.m_searchLineEdit.text ∧
      (setZoomFactor eng self v).m_searchLineEdit.text = self.m_searchLineEdit.text ∧
      (setPage eng self p).m_searchLineEdit.text = self.m_searchLineEdit.text) ∧
    (∀ a : Action,
      (step b eng baseFilter self a).m_searchLineEdit.text
        = match a with
          | .textEdited t => t
          | _ => self.m_searchLineEdit.text) ∧
    (∀ (web : WebViewState) (hint size : QSize) (frame : Int) (actions : List Action),
      (run b eng baseFilter (construct eng web hint size frame) actions).m_searchLineEdit.text
        = lastInput actions) ∧
    (showSearch b eng (hideSearch b eng self)).m_searchLineEdit.text
      = self.m_searchLineEdit.text := by
  refine ⟨?_, step_text b eng baseFilter self, ?_, ?_⟩
  · intro t backward size e o u v p
    exact ⟨showSearch_text b eng self, hideSearch_text b eng self, find_text b eng self t,
      callWebView_text eng self _,
      moveLineEdit_text b self,
      (moveLineEdit_text b _).trans (callWebView_text eng self _),
      keyPressEvent_text b eng self e,
      eventFilter_text b eng baseFilter self o e,
      callWebView_text eng self _, callWebView_text eng self _, callWebView_text eng self _,
      callWebView_text eng self _, callWebView_text eng self _, callWebView_text eng self _⟩
  · intro web hint size frame actions
    exact run_text b eng baseFilter actions _ "" rfl
  · rw [showSearch_text, hideSearch_text]

/-! ### Showing the search box -/

theorem find_trace (b : Build) (eng : Engine) (self : SearchableWebView) (t : QString) :
    (find b eng self t).trace = self.trace ++ findCalls b self.m_webView.selectedText t := by
  cases b
  · exact find_webkit_trace eng self t
  · rfl

theorem find_lineEdit (b : Build) (eng : Engine) (self : SearchableWebView) (t : QString) :
    (find b eng self t).m_searchLineEdit = self.m_searchLineEdit := by
  cases b
  · unfold find
    simp only
    split_ifs <;> rfl
  · rfl

theorem find_webView_congr (b : Build) (eng : Engine) (s₁ s₂ : SearchableWebView)
    (t : QString) (h : s₁.m_webView = s₂.m_webView) :
    (find b eng s₁ t).m_webView = (find b eng s₂ t).m_webView := by
  cases b
  · unfold find
    simp only [h]
    split_ifs <;> simp only [callWebView, h]
  · simp only [find, callWebView, h]

/-- C8: after `showSearch()` the search box is visible and has the focus.  If its text `t` is
not empty, the whole text is selected, and the calls issued are the showing, focusing and
selecting of the box followed by exactly the calls of `find(t)`, which leave the web view as
`find(t)` leaves it; if the text is empty, only the box is shown and focused, no `findText`
call is issued and the web view is as before.  `keyPressEvent` with the key Slash performs
`showSearch()` and accepts the event; with any other key it ignores the event and changes
nothing. -/
theorem C8_show_search (b : Build) (eng : Engine) (self : SearchableWebView) (e : QEvent) :
    (showSearch b eng self).m_searchLineEdit.visible = true ∧
    (showSearch b eng self).m_searchLineEdit.hasFocus = true ∧
    (self.m_searchLineEdit.text ≠ "" →
      (showSearch b eng self).m_searchLineEdit.selectedText = self.m_searchLineEdit.text ∧
      issuedBetween self (showSearch b eng self)
        = [Call.lineEdit .show_, Call.lineEdit .setFocus, Call.lineEdit .selectAll]
          ++ issuedBetween self (find b eng self self.m_searchLineEdit.text) ∧
      (showSearch b eng self).m_webView
        = (find b eng self self.m_searchLineEdit.text).m_webView) ∧
    (self.m_searchLineEdit.text = "" →
      issuedBetween self (showSearch b eng self)
        = [Call.lineEdit .show_, Call.lineEdit .setFocus] ∧
      (showSearch b eng self).m_webView = self.m_webView) ∧
    (e.key = Qt.Key_Slash → keyPressEvent b eng self e = (showSearch b eng self, true)) ∧
    (e.key ≠ Qt.Key_Slash → keyPressEvent b eng self e = (self, false)) := by
  have htext : ∀ c₁ c₂ : LineEditCall,
      (callLineEdit (callLineEdit self c₁) c₂).m_searchLineEdit.text
        = self.m_searchLineEdit.text := by
    intro c₁ c₂
    rw [callLineEdit_text, callLineEdit_text]
  refine ⟨?_, ?_, ?_, ?_, ?_, ?_⟩
  · unfold showSearch
    simp only
    split_ifs
    · rw [find_lineEdit]
      rfl
    · rfl
  · unfold showSearch
    simp only
    split_ifs
    · rw [find_lineEdit]
      rfl
    · rfl
  · intro ht
    have he : self.m_searchLineEdit.text.isEmpty = false :=
      (QString.isEmpty_eq_false_iff _).2 ht
    have hs : showSearch b eng self
        = find b eng
            (callLineEdit (callLineEdit (callLineEdit self .show_) .setFocus) .selectAll)
            self.m_searchLineEdit.text := by
      unfold showSearch
      simp only [htext, he]
      simp [callLineEdit_text]
    refine ⟨?_, ?_, ?_⟩
    · rw [hs, find_lineEdit]
      rfl
    · rw [issuedBetween_append self _ _ (find_trace b eng self _)]
      apply issuedBetween_append
      rw [hs, find_trace]
      simp [callLineEdit]
    · rw [hs]
      exact find_webView_congr b eng _ _ _ rfl
  · intro ht
    have he : self.m_searchLineEdit.text.isEmpty = true := (QString.isEmpty_iff _).2 ht
    have hs : showSearch b eng self = callLineEdit (callLineEdit self .show_) .setFocus := by
      unfold showSearch
      simp only [htext, he]
      simp
    refine ⟨?_, ?_⟩
    · apply issuedBetween_append
      rw [hs]
      simp [callLineEdit]
    · rw [hs]
      rfl
  · intro hk
    simp [keyPressEvent, hk]
  · intro hk
    simp [keyPressEvent, hk]

theorem C8_show_search_witness :
    ((textEdited .webkit exampleEngine exampleWidget "graph").m_searchLineEdit.text ≠ "" ∧
      issuedBetween (textEdited .webkit exampleEngine exampleWidget "graph")
          (showSearch .webkit exampleEngine
            (textEdited .webkit exampleEngine exampleWidget "graph"))
        = [Call.lineEdit .show_, Call.lineEdit .setFocus, Call.lineEdit .selectAll]
          ++ issuedBetween (textEdited .webkit exampleEngine exampleWidget "graph")
              (find .webkit exampleEngine
                (textEdited .webkit exampleEngine exampleWidget "graph")
                (textEdited .webkit exampleEngine exampleWidget "graph").m_searchLineEdit.text)) ∧
    (exampleWidget.m_searchLineEdit.text = "" ∧
      (showSearch .webkit exampleEngine exampleWidget).m_webView = exampleWidget.m_webView) ∧
    ((⟨QEvent.KeyPress, Qt.Key_Slash, 0⟩ : QEvent).key = Qt.Key_Slash ∧
      keyPressEvent .webkit exampleEngine exampleWidget ⟨QEvent.KeyPress, Qt.Key_Slash, 0⟩
        = (showSearch .webkit exampleEngine exampleWidget, true)) ∧
    ((⟨QEvent.KeyPress, 65, 0⟩ : QEvent).key ≠ Qt.Key_Slash ∧
      keyPressEvent .webkit exampleEngine exampleWidget ⟨QEvent.KeyPress, 65, 0⟩
        = (exampleWidget, false)) :=
  ⟨⟨by decide,
    ((C8_show_search .webkit exampleEngine
      (textEdited .webkit exampleEngine exampleWidget "graph")
      ⟨QEvent.KeyPress, 65, 0⟩).2.2.1 (by decide)).2.1⟩,
   ⟨by decide,
    ((C8_show_search .webkit exampleEngine exampleWidget
      ⟨QEvent.KeyPress, 65, 0⟩).2.2.2.1 (by decide)).2⟩,
   ⟨by decide,
    (C8_show_search .webkit exampleEngine exampleWidget
      ⟨QEvent.KeyPress, Qt.Key_Slash, 0⟩).2.2.2.2.1 (by decide)⟩,
   ⟨by decide,
    (C8_show_search .webkit exampleEngine exampleWidget
      ⟨QEvent.KeyPress, 65, 0⟩).2.2.2.2.2 (by decide)⟩⟩

/-- C9: `eventFilter` returns true whatever the base class would answer exactly when the
object is the search box, the event is a `KeyPress` and the key is Escape, Enter or Return,
and then its effect does not depend on the base class either.  In every other case it
changes nothing (no call is issued, the search box keeps its text and visibility) and returns
what the base-class `QWidget::eventFilter` returns. -/
theorem C9_event_filter_only_search_keys (b : Build) (eng : Engine)
    (self : SearchableWebView) (object : QObjectId) (event : QEvent) :
    ((∀ baseFilter, (eventFilter b eng baseFilter self object event).2 = true)
      ↔ isSearchKeyPress object event) ∧
    (isSearchKeyPress object event →
      ∀ base₁ base₂,
        eventFilter b eng base₁ self object event
          = eventFilter b eng base₂ self object event) ∧
    (¬ isSearchKeyPress object event →
      ∀ baseFilter,
        eventFilter b eng baseFilter self object event
          = (self, baseFilter object event)) := by
  have hno : ¬ isSearchKeyPress object event →
      ∀ baseFilter,
        eventFilter b eng baseFilter self object event
          = (self, baseFilter object event) := by
    intro h baseFilter
    unfold isSearchKeyPress at h
    unfold eventFilter
    split_ifs with h₁ h₂ h₃
    · exact absurd ⟨h₁.1, h₁.2, Or.inl h₂⟩ h
    · exact absurd ⟨h₁.1, h₁.2, Or.inr h₃⟩ h
    · rfl
    · rfl
  have hyes : isSearchKeyPress object event →
      ∀ baseFilter,
        eventFilter b eng baseFilter self object event
          = if event.key = Qt.Key_Escape then (hideSearch b eng self, true)
            else (findNext b eng self self.m_searchLineEdit.text
              ((event.modifiers &&& Qt.ShiftModifier) != 0), true) := by
    rintro ⟨ho, ht, hk⟩ baseFilter
    unfold eventFilter
    by_cases hesc : event.key = Qt.Key_Escape
    · simp [ho, ht, hesc]
    · have hk2 : event.key = Qt.Key_Enter ∨ event.key = Qt.Key_Return :=
        hk.resolve_left hesc
      simp [ho, ht, hesc, hk2]
  refine ⟨⟨?_, ?_⟩, ?_, hno⟩
  · intro hall
    by_contra hc
    have := hall (fun _ _ => false)
    rw [hno hc] at this
    exact Bool.false_ne_true this
  · intro hc baseFilter
    rw [hyes hc]
    split_ifs <;> rfl
  · intro hc base₁ base₂
    rw [hyes hc, hyes hc]

theorem C9_event_filter_only_search_keys_witness :
    (isSearchKeyPress .searchLineEdit ⟨QEvent.KeyPress, Qt.Key_Return, 0⟩ ∧
      eventFilter .webkit exampleEngine (fun _ _ => false) exampleWidget .searchLineEdit
          ⟨QEvent.KeyPress, Qt.Key_Return, 0⟩
        = eventFilter .webkit exampleEngine (fun _ _ => true) exampleWidget .searchLineEdit
          ⟨QEvent.KeyPress, Qt.Key_Return, 0⟩) ∧
    (¬ isSearchKeyPress .searchLineEdit ⟨QEvent.KeyPress, 65, 0⟩ ∧
      eventFilter .webkit exampleEngine (fun _ _ => false) exampleWidget .searchLineEdit
          ⟨QEvent.KeyPress, 65, 0⟩
        = (exampleWidget, false)) :=
  ⟨⟨by unfold isSearchKeyPress; decide,
    (C9_event_filter_only_search_keys .webkit exampleEngine exampleWidget .searchLineEdit
      ⟨QEvent.KeyPress, Qt.Key_Return, 0⟩).2.1 (by unfold isSearchKeyPress; decide) _ _⟩,
   ⟨by unfold isSearchKeyPress; decide,
    (C9_event_filter_only_search_keys .webkit exampleEngine exampleWidget .searchLineEdit
      ⟨QEvent.KeyPress, 65, 0⟩).2.2 (by unfold isSearchKeyPress; decide) _⟩⟩

/-! ### The tooltip -/

theorem linkHoveredSlot_toolTip (self : SearchableWebView) (l : QString) :
    (linkHoveredSlot self l).toolTip
      = if l.startsWith "file:" = true then self.toolTip else l := by
  unfold linkHoveredSlot
  cases l.startsWith "file:" <;> simp [setToolTip]

theorem foldl_linkHoveredSlot_toolTip (cs : List Nat) (self : SearchableWebView)
    (l : QString) :
    (cs.foldl (fun s _ => linkHoveredSlot s l) self).toolTip
      = if cs = [] ∨ l.startsWith "file:" = true then self.toolTip else l := by
  induction cs generalizing self with
  | nil => simp
  | cons c cs ih =>
    rw [List.foldl_cons, ih, linkHoveredSlot_toolTip]
    by_cases hl : l.startsWith "file:" = true
    · simp [hl]
    · by_cases hcs : cs = [] <;> simp [hl, hcs]

theorem emitLinkHovered_toolTip (self : SearchableWebView) (p : Nat) (l : QString) :
    (emitLinkHovered self p l).toolTip
      = if p ∉ self.hoverConnections ∨ l.startsWith "file:" = true then self.toolTip
        else l := by
  unfold emitLinkHovered
  rw [foldl_linkHoveredSlot_toolTip]
  have h : (self.hoverConnections.filter (fun q => q == p) = []) ↔
      p ∉ self.hoverConnections := by
    rw [List.filter_eq_nil_iff]
    constructor
    · intro h hp
      exact h p hp (by simp)
    · intro h q hq hqp
      have : q = p := by simpa using hqp
      exact h (this ▸ hq)
  simp only [h]

theorem find_toolTip (b : Build) (eng : Engine) (self : SearchableWebView) (t : QString) :
    (find b eng self t).toolTip = self.toolTip := by
  cases b
  · unfold find
    simp only
    split_ifs <;> rfl
  · rfl

theorem hideSearch_toolTip (b : Build) (eng : Engine) (self : SearchableWebView) :
    (hideSearch b eng self).toolTip = self.toolTip := by
  cases b <;> rfl

theorem showSearch_toolTip (b : Build) (eng : Engine) (self : SearchableWebView) :
    (showSearch b eng self).toolTip = self.toolTip := by
  unfold showSearch
  simp only
  split_ifs
  · rw [find_toolTip]
    rfl
  · rfl

theorem eventFilter_toolTip (b : Build) (eng : Engine)
    (baseFilter : QObjectId → QEvent → Bool) (self : SearchableWebView) (o : QObjectId)
    (e : QEvent) :
    (eventFilter b eng baseFilter self o e).1.toolTip = self.toolTip := by
  unfold eventFilter
  split_ifs
  · exact hideSearch_toolTip b eng self
  · rfl
  · rfl
  · rfl

theorem keyPressEvent_toolTip (b : Build) (eng : Engine) (self : SearchableWebView)
    (e : QEvent) :
    (keyPressEvent b eng self e).1.toolTip = self.toolTip := by
  unfold keyPressEvent
  split_ifs
  · exact showSearch_toolTip b eng self
  · rfl

/-- The tooltip after one action: only a hovered link can change it. -/
theorem step_toolTip (b : Build) (eng : Engine) (baseFilter : QObjectId → QEvent → Bool)
    (self : SearchableWebView) (a : Action) :
    (step b eng baseFilter self a).toolTip
      = match a with
        | .linkHovered p l => (emitLinkHovered self p l).toolTip
        | _ => self.toolTip := by
  cases a <;>
    simp only [step, setPage, setZoomFactor, load, focus, back, forward, findNext,
      resizeEvent, loadFinishedSlot, find_toolTip, hideSearch_toolTip, showSearch_toolTip,
      eventFilter_toolTip, keyPressEvent_toolTip, (moveLineEdit_rest _ _).2.2.2.1,
      callWebView]
  case textEdited t =>
    unfold textEdited
    split_ifs
    · rfl
    · rw [find_toolTip]

theorem run_toolTip (b : Build) (eng : Engine) (baseFilter : QObjectId → QEvent → Bool)
    (actions : List Action) (self : SearchableWebView)
    (h : self.toolTip.startsWith "file:" = false) :
    (run b eng baseFilter self actions).toolTip.startsWith "file:" = false := by
  induction actions generalizing self with
  | nil => exact h
  | cons a actions ih =>
    simp only [run, List.foldl_cons] at ih ⊢
    apply ih
    rw [step_toolTip]
    cases a <;> simp only [h]
    case linkHovered p l =>
      rw [emitLinkHovered_toolTip]
      split_ifs with hc
      · exact h
      · have : ¬ l.startsWith "file:" = true := fun hl => hc (Or.inr hl)
        simpa using this

/-- C10: the slot that `setPage(page)` connects to `linkHovered` sets the tooltip to the
hovered link `l` when `l` does not start with `file:` (compared case-sensitively; the empty
link clears the tooltip) and leaves the tooltip as it was when `l` starts with `file:`; the
same holds for the signal of a page passed to `setPage`.  So after any sequence of actions on
a newly constructed widget the tooltip does not start with `file:`. -/
theorem C10_link_hover_tooltip (b : Build) (eng : Engine)
    (baseFilter : QObjectId → QEvent → Bool) (self : SearchableWebView) (page : Nat)
    (l : QString) :
    (l.startsWith "file:" = true ↔ ∃ rest : String, l = "file:" ++ rest) ∧
    (linkHoveredSlot self l).toolTip
      = (if l.startsWith "file:" = true then self.toolTip else l) ∧
    (emitLinkHovered (setPage eng self page) page l).toolTip
      = (if l.startsWith "file:" = true then self.toolTip else l) ∧
    (linkHoveredSlot self "").toolTip = "" ∧
    (linkHoveredSlot self "FILE:///a.html").toolTip = "FILE:///a.html" ∧
    (linkHoveredSlot self "file:///a.html").toolTip = self.toolTip ∧
    (∀ (web : WebViewState) (hint size : QSize) (frame : Int) (actions : List Action),
      (run b eng baseFilter (construct eng web hint size frame) actions).toolTip.startsWith
        "file:" = false) := by
  refine ⟨QString.startsWith_iff l _, linkHoveredSlot_toolTip self l, ?_, ?_, ?_, ?_, ?_⟩
  · rw [emitLinkHovered_toolTip]
    have hp : page ∈ (setPage eng self page).hoverConnections := by
      simp [setPage]
    have ht : (setPage eng self page).toolTip = self.toolTip := rfl
    simp only [hp, not_true_eq_false, false_or, ht]
  · rw [linkHoveredSlot_toolTip]
    rfl
  · rw [linkHoveredSlot_toolTip]
    rfl
  · rw [linkHoveredSlot_toolTip]
    rfl
  · intro web hint size frame actions
    exact run_toolTip b eng baseFilter actions _ (by rfl)

end SearchableWebView
